import Mathlib

/-!
Shallow embedding of the Intellium backend's authentication core
(src/backend/app/core/security.py, src/backend/app/api/auth.py,
src/backend/app/middleware/rate_limit.py,
src/backend/app/middleware/error_handler.py) and proofs of the frozen
claims about it.

Machine conventions: timestamps are `Int` seconds (UTC epoch), store
contents are `List User`, HTTP outcomes are explicit data.  External
libraries (python-jose, passlib, FastAPI's OAuth2PasswordBearer, the
slowapi fixed-window backend) are modelled at their documented interface
behaviour; repository code is translated line by line.
-/

namespace Intellium

/-- Modelled from the spec: `TokenData` lives in `app/schemas/auth.py`,
which is absent from src/; per the spec the decoded token data carries the
subject email. -/
structure TokenData where
  email : String
deriving Repr, DecidableEq

/-- The claims dictionary passed to `create_access_token` /
`create_refresh_token` (`data: Dict[str, Any]`); the call sites use the
`sub` claim, and `type` is the token-kind tag the codec may set. -/
structure TokenClaims where
  sub : Option String
  type : Option String
deriving Repr, DecidableEq

/-- A JWT payload as produced by `jwt.encode`: subject, expiry, issued-at
and the optional `type` (token-kind) claim. -/
structure JWTPayload where
  sub : Option String
  exp : Int
  iat : Option Int
  type : Option String
deriving Repr, DecidableEq

/-- A token string: either a well-formed JWT signed with some key, or a
string that is not a structurally valid JWT at all. -/
inductive Token where
  | signed (payload : JWTPayload) (key : String)
  | malformed (raw : String)
deriving Repr, DecidableEq

/-- The payload of a structurally valid token, if any. -/
def tokenPayload : Token → Option JWTPayload
  | .signed p _ => some p
  | .malformed _ => none

/-- `jose.jwt.decode(token, secret, algorithms=[ALGORITHM])`: raises
`JWTError` (modelled as `.error`) on a malformed token, on a signature
produced with a different key, and on `exp` strictly in the past
(leeway 0); otherwise returns the payload. -/
def jwtDecode (token : Token) (secret : String) (now : Int) : Except String JWTPayload :=
  match token with
  | .malformed _ => .error "malformed payload"
  | .signed p k =>
    if k ≠ secret then .error "signature mismatch"
    else if p.exp < now then .error "token expired"
    else .ok p

/-- `settings.ACCESS_TOKEN_EXPIRE_MINUTES` (app/core/config.py, default 30). -/
def ACCESS_TOKEN_EXPIRE_MINUTES : Int := 30

/-- `create_access_token` (security.py:76-121): copies the claims, sets
`exp = now + expires_delta` (default 30 minutes) and `iat = now`, and signs
with the server secret. -/
def create_access_token (secret : String) (now : Int) (data : TokenClaims)
    (expiresDelta : Option Int) : Token :=
  let expire := now + expiresDelta.getD (ACCESS_TOKEN_EXPIRE_MINUTES * 60)
  .signed { sub := data.sub, exp := expire, iat := some now, type := data.type } secret

/-- `create_refresh_token` (security.py:167-200): default validity 7 days,
sets `exp` and the `type = "refresh"` tag (overwriting any `type` claim in
the input), does not set `iat`, signs with the same server secret. -/
def create_refresh_token (secret : String) (now : Int) (data : TokenClaims)
    (expiresDelta : Option Int) : Token :=
  let expire := now + expiresDelta.getD (7 * 24 * 60 * 60)
  .signed { sub := data.sub, exp := expire, iat := none, type := some "refresh" } secret

/-- `decode_access_token` (security.py:124-164): decodes with the server
secret; every exception path (`JWTError`, `ValidationError`, anything else)
is caught and yields `None`; a payload without a `sub` claim yields `None`;
otherwise the `TokenData` with the subject email is returned.  Totality of
this function is the "never throws to the caller" guarantee. -/
def decode_access_token (secret : String) (now : Int) (token : Token) : Option TokenData :=
  match jwtDecode token secret now with
  | .error _ => none
  | .ok payload =>
    match payload.sub with
    | none => none
    | some email => some ⟨email⟩

/-- Modelled from the spec: the `User` record of `app/models/user.py`,
absent from src/; fields are those used by auth.py, conftest.py and spec
§3 (unique email key, password hash, active and privileged flags). -/
structure User where
  id : Nat
  email : String
  hashed_password : String
  full_name : Option String
  is_active : Bool
  is_superuser : Bool
deriving Repr, DecidableEq

/-- `db.query(User).filter(User.email == e).first()`: first stored user
whose email is an exact, case-sensitive match. -/
def findByEmail (db : List User) (email : String) : Option User :=
  db.find? (fun u => u.email == email)

/-- An `HTTPException`: status code and detail message. -/
structure HTTPError where
  status : Nat
  detail : String
deriving Repr, DecidableEq

/-- The single `credentials_exception` raised by `get_current_user`
(auth.py:62-66) for every failure it can distinguish. -/
def credentials_exception : HTTPError :=
  ⟨401, "Could not validate credentials"⟩

/-- `get_current_user` (auth.py:32-83): decode the bearer token; `None`
from the decoder raises `credentials_exception`; an email that matches no
stored user raises the same `credentials_exception`; otherwise the user is
returned (no check of `is_active` anywhere on this path). -/
def get_current_user (secret : String) (now : Int) (db : List User)
    (token : Token) : Except HTTPError User :=
  match decode_access_token secret now token with
  | none => .error credentials_exception
  | some tokenData =>
    match findByEmail db tokenData.email with
    | none => .error credentials_exception
    | some user => .ok user

/-- Modelled from the spec: FastAPI's `OAuth2PasswordBearer` dependency
(external library) rejects a request with no Authorization header with a
401 before `get_current_user` runs; spec §8: `GET /auth/me` with no
header → 401. -/
def oauth2_scheme (authHeader : Option Token) : Except HTTPError Token :=
  match authHeader with
  | none => .error ⟨401, "Not authenticated"⟩
  | some t => .ok t

/-- `GET /auth/me` (`read_current_user`, auth.py:212-230): the
`oauth2_scheme` dependency extracts the bearer token, then
`get_current_user` resolves it; success returns the user (-> 200). -/
def read_current_user (secret : String) (now : Int) (db : List User)
    (authHeader : Option Token) : Except HTTPError User :=
  match oauth2_scheme authHeader with
  | .error e => .error e
  | .ok token => get_current_user secret now db token

/-- `verify_password` (security.py:29-53): calls the external passlib
backend `pwd_context.verify`, which either returns a boolean or raises
(e.g. on a hash that is not a valid bcrypt string, modelled as `.error`);
every exception is caught and turned into `false`.  The `Bool` return type
(not `Except`) is the "never throws" guarantee. -/
def verify_password (backend : String → String → Except String Bool)
    (plain hashed : String) : Bool :=
  match backend plain hashed with
  | .ok b => b
  | .error _ => false

/-- The body of the `/auth/login` response (`LoginResponse` lives in the
absent `app/schemas/auth.py`; fields are exactly the dict literal returned
at auth.py:205-209). -/
structure LoginResponse where
  access_token : Token
  token_type : String
  user : User
deriving Repr, DecidableEq

/-- `login` (auth.py:141-209), with the (already exception-wrapped)
password verifier passed as a parameter: look up by email, 401 on not
found; verify password, 401 with the identical message on mismatch; 403 on
inactive; otherwise issue an access token with `sub = user.email`. -/
def login (verify : String → String → Bool) (secret : String) (now : Int)
    (db : List User) (username password : String) : Except HTTPError LoginResponse :=
  match findByEmail db username with
  | none => .error ⟨401, "Incorrect email or password"⟩
  | some user =>
    if ¬ verify password user.hashed_password then
      .error ⟨401, "Incorrect email or password"⟩
    else if ¬ user.is_active then
      .error ⟨403, "Inactive user"⟩
    else
      .ok ⟨create_access_token secret now ⟨some user.email, none⟩ none, "bearer", user⟩

/-- Modelled from the spec: the public user representation (`UserResponse`
of the absent `app/schemas/auth.py`); spec §3/§4.3: it never includes the
password hash, and the registration test asserts exactly these fields. -/
structure UserResponse where
  id : Nat
  email : String
  full_name : Option String
  is_active : Bool
  is_superuser : Bool
deriving Repr, DecidableEq

/-- Serialization of a stored user through `response_model=UserResponse`:
every field except the password hash. -/
def userResponse (u : User) : UserResponse :=
  ⟨u.id, u.email, u.full_name, u.is_active, u.is_superuser⟩

/-- `register` (auth.py:86-138): pre-check by exact email, 400 on
duplicate with the store untouched; otherwise hash the password, persist
one new user with `is_active = True`, `is_superuser = False`, and return
its public representation.  The second component is the store after the
call. -/
def register (hash : String → String) (db : List User) (nextId : Nat)
    (email password : String) (full_name : Option String) :
    Except HTTPError UserResponse × List User :=
  match findByEmail db email with
  | some _ => (.error ⟨400, "Email already registered"⟩, db)
  | none =>
    let dbUser : User := ⟨nextId, email, hash password, full_name, true, false⟩
    (.ok (userResponse dbUser), db ++ [dbUser])

/-- The `ErrorResponse` envelope of error_handler.py:18-31. -/
structure ErrorResponse where
  error : String
  message : String
  path : String
deriving Repr, DecidableEq

/-- `database_exception_handler` (error_handler.py:121-152): every
`SQLAlchemyError` (`IntegrityError` included) that reaches the boundary is
mapped to status 500 with the `DATABASE_ERROR` envelope. -/
def database_exception_handler (path : String) : Nat × ErrorResponse :=
  (500, ⟨"DATABASE_ERROR", "A database error occurred", path⟩)

/-- Outcome of one HTTP request after the exception handlers ran. -/
inductive AppOutcome where
  | created (body : UserResponse) (store : List User)
  | httpError (e : HTTPError)
  | errorEnvelope (status : Nat) (body : ErrorResponse)
deriving Repr, DecidableEq

/-- `POST /auth/register` as processed by the application when the commit
races a concurrent insert: the handler's pre-check reads the session view
`viewDb`, but the unique index is enforced against `committedDb`.  An
`IntegrityError` raised by `db.commit()` is not caught inside `register`
(auth.py:114-138 has no try/except), so it propagates to
`database_exception_handler`. -/
def register_request (hash : String → String) (viewDb committedDb : List User)
    (nextId : Nat) (email password : String) (full_name : Option String)
    (path : String) : AppOutcome :=
  match findByEmail viewDb email with
  | some _ => .httpError ⟨400, "Email already registered"⟩
  | none =>
    if (findByEmail committedDb email).isSome then
      let (st, body) := database_exception_handler path
      .errorEnvelope st body
    else
      let dbUser : User := ⟨nextId, email, hash password, full_name, true, false⟩
      .created (userResponse dbUser) (committedDb ++ [dbUser])

/-- `get_client_identifier` (rate_limit.py:16-45): the principal stored on
`request.state.user` by the auth dependency, if any, keys the limiter as
`user:<id>`; otherwise the remote address keys it as `ip:<address>`. -/
def get_client_identifier (stateUser : Option User) (remoteAddress : String) : String :=
  match stateUser with
  | some u => "user:" ++ toString u.id
  | none => "ip:" ++ remoteAddress

/-- A decimal digit's value, if the character is one. -/
def charDigit? (c : Char) : Option Nat :=
  if '0' ≤ c ∧ c ≤ '9' then some (c.toNat - '0'.toNat) else none

/-- Accumulating decimal parse of a digit string. -/
def digitsToNatAux : Nat → List Char → Option Nat
  | acc, [] => some acc
  | acc, c :: cs =>
    match charDigit? c with
    | none => none
    | some d => digitsToNatAux (acc * 10 + d) cs

/-- A nonempty all-digit character list as a number. -/
def listToNat? : List Char → Option Nat
  | [] => none
  | cs => digitsToNatAux 0 cs

/-- A rate-limit string `"N/minute"` or `"N/hour"` parsed to
(count, window length in seconds), as the limits library reads the strings
in rate_limit.py. -/
def parseLimit (s : String) : Option (Nat × Nat) :=
  match s.toList.splitOn '/' with
  | [n, p] =>
    if p = "minute".toList then (listToNat? n).map (fun k => (k, 60))
    else if p = "hour".toList then (listToNat? n).map (fun k => (k, 3600))
    else none
  | _ => none

/-- The `@limiter.limit("5/minute")` decoration on `register` (auth.py:87). -/
def registration_limit : Option (Nat × Nat) := parseLimit "5/minute"

/-- The `@limiter.limit("10/minute")` decoration on `login` (auth.py:142). -/
def login_limit : Option (Nat × Nat) := parseLimit "10/minute"

/-- `default_limits=["100/minute", "1000/hour"]` of the `Limiter`
constructed in rate_limit.py:49-54. -/
def default_limits : List (Option (Nat × Nat)) :=
  ["100/minute", "1000/hour"].map parseLimit

/-- One fixed-window counter: the window's start time and the number of
requests counted in it. -/
structure WindowState where
  windowStart : Nat
  count : Nat
deriving Repr, DecidableEq

/-- Modelled from the spec: the fixed-window strategy of the slowapi /
limits backend (external library, selected by `strategy="fixed-window"` in
rate_limit.py); spec §4.5: a request increments the counter of the current
window and is rejected when the counter exceeds the limit; when the window
has elapsed the counter is reset.  Returns (allowed?, new counter). -/
def fixedWindowHit (limit window now : Nat) (st : Option WindowState) :
    Bool × WindowState :=
  match st with
  | some s =>
    if now < s.windowStart + window then
      (decide (s.count + 1 ≤ limit), ⟨s.windowStart, s.count + 1⟩)
    else
      (decide (1 ≤ limit), ⟨now, 1⟩)
  | none => (decide (1 ≤ limit), ⟨now, 1⟩)

/-- Look up the counter for one identity key. -/
def lookupKey (key : String) : List (String × WindowState) → Option WindowState
  | [] => none
  | (k, v) :: rest => if k == key then some v else lookupKey key rest

/-- Store the counter for one identity key, touching no other key. -/
def updateKey (key : String) (s : WindowState) :
    List (String × WindowState) → List (String × WindowState)
  | [] => [(key, s)]
  | (k, v) :: rest =>
    if k == key then (k, s) :: rest else (k, v) :: updateKey key s rest

/-- One request hitting one (limit, window) counter map under its identity
key: counters are tracked independently per key. -/
def keyedHit (limit window now : Nat) (key : String)
    (m : List (String × WindowState)) : Bool × List (String × WindowState) :=
  ((fixedWindowHit limit window now (lookupKey key m)).1,
   updateKey key (fixedWindowHit limit window now (lookupKey key m)).2 m)

/-- The guarded route: a rejected request is answered 429 by
`_rate_limit_exceeded_handler` without the route handler's result entering
the response. -/
def rate_limited_call {α : Type} (limit window now : Nat) (key : String)
    (m : List (String × WindowState)) (handler : α) :
    Except HTTPError α × List (String × WindowState) :=
  (if (keyedHit limit window now key m).1 then .ok handler
   else .error ⟨429, "Rate limit exceeded"⟩,
   (keyedHit limit window now key m).2)

/-- The counter state after `n` requests at the same instant `t` on one
key's counter, starting from no counter. -/
def sameTimeState (limit window t : Nat) : Nat → Option WindowState
  | 0 => none
  | n + 1 => some (fixedWindowHit limit window t (sameTimeState limit window t n)).2

/-- The limiter's verdict on the `n`-th request (1-indexed) of a burst at
the same instant `t`. -/
def sameTimeDecision (limit window t n : Nat) : Bool :=
  (fixedWindowHit limit window t (sameTimeState limit window t (n - 1))).1

/-! ## Theorems -/

/-- C4: `decode_access_token` returns the single undifferentiated invalid
outcome `none` — and, being a total function into `Option`, never throws
to the caller — whenever the token is malformed, the signature was made
with a different key, `exp` is in the past, or the `sub` claim is missing;
a successful decode returns the claims' subject. -/
theorem C4_decode_failclosed (secret : String) (now : Int) :
    (∀ raw, decode_access_token secret now (.malformed raw) = none) ∧
    (∀ p k, k ≠ secret → decode_access_token secret now (.signed p k) = none) ∧
    (∀ p k, p.exp < now → decode_access_token secret now (.signed p k) = none) ∧
    (∀ p k, p.sub = none → decode_access_token secret now (.signed p k) = none) ∧
    (∀ p email, p.sub = some email → now ≤ p.exp →
      decode_access_token secret now (.signed p secret) = some ⟨email⟩) := by
  refine ⟨fun raw => rfl, ?_, ?_, ?_, ?_⟩
  · intro p k hk
    simp [decode_access_token, jwtDecode, hk]
  · intro p k hexp
    by_cases hk : k = secret
    · subst hk
      simp [decode_access_token, jwtDecode, hexp]
    · simp [decode_access_token, jwtDecode, hk]
  · intro p k hsub
    by_cases hk : k = secret
    · subst hk
      by_cases hexp : p.exp < now
      · simp [decode_access_token, jwtDecode, hexp]
      · simp [decode_access_token, jwtDecode, hexp, hsub]
    · simp [decode_access_token, jwtDecode, hk]
  · intro p email hsub hexp
    simp [decode_access_token, jwtDecode, not_lt.mpr hexp, hsub]

/-- C4 witness: all five branches at concrete tokens. -/
theorem C4_decode_failclosed_witness :
    decode_access_token "k" 0 (.malformed "garbage") = none ∧
    decode_access_token "k" 0 (.signed ⟨some "a@x.com", 100, none, none⟩ "other") = none ∧
    decode_access_token "k" 200 (.signed ⟨some "a@x.com", 100, none, none⟩ "k") = none ∧
    decode_access_token "k" 0 (.signed ⟨none, 100, none, none⟩ "k") = none ∧
    decode_access_token "k" 0 (.signed ⟨some "a@x.com", 100, none, none⟩ "k")
      = some ⟨"a@x.com"⟩ :=
  ⟨(C4_decode_failclosed "k" 0).1 "garbage",
   (C4_decode_failclosed "k" 0).2.1 _ _ (by decide),
   (C4_decode_failclosed "k" 200).2.2.1 _ _ (by decide),
   (C4_decode_failclosed "k" 0).2.2.2.1 _ _ rfl,
   (C4_decode_failclosed "k" 0).2.2.2.2 _ _ rfl (by decide)⟩

/-- C1 counterexample: a refresh token carries `type = "refresh"`, yet an
unexpired refresh token with a `sub` claim is decoded successfully by
`decode_access_token` and accepted by `get_current_user` — the tag does
NOT prevent its use as an access token. -/
theorem C1_counterexample :
    (tokenPayload (create_refresh_token "k" 0 ⟨some "u@example.com", none⟩ none)).map
        JWTPayload.type = some (some "refresh") ∧
    decode_access_token "k" 0 (create_refresh_token "k" 0 ⟨some "u@example.com", none⟩ none)
      = some ⟨"u@example.com"⟩ ∧
    get_current_user "k" 0 [⟨1, "u@example.com", "h", none, true, false⟩]
        (create_refresh_token "k" 0 ⟨some "u@example.com", none⟩ none)
      = .ok ⟨1, "u@example.com", "h", none, true, false⟩ := by
  refine ⟨rfl, rfl, rfl⟩

/-- C1 (amended): a token created by `create_refresh_token` carries the
explicit `type = "refresh"` tag, but `decode_access_token` never inspects
the `type` claim, so the tag does not prevent use as an access token: any
unexpired refresh token signed with the server secret and carrying a `sub`
claim decodes successfully, and current-principal resolution accepts it
whenever the subject matches a stored user. -/
theorem C1_refresh_tag_unenforced (secret : String) (issuedAt now : Int)
    (data : TokenClaims) (delta : Option Int) :
    (∃ p, create_refresh_token secret issuedAt data delta = .signed p secret ∧
      p.type = some "refresh" ∧ p.sub = data.sub) ∧
    (∀ email, data.sub = some email →
      now ≤ issuedAt + delta.getD (7 * 24 * 60 * 60) →
      decode_access_token secret now (create_refresh_token secret issuedAt data delta)
        = some ⟨email⟩) ∧
    (∀ email u db, data.sub = some email →
      now ≤ issuedAt + delta.getD (7 * 24 * 60 * 60) →
      findByEmail db email = some u →
      get_current_user secret now db (create_refresh_token secret issuedAt data delta)
        = .ok u) := by
  refine ⟨⟨_, rfl, rfl, rfl⟩, ?_, ?_⟩
  · intro email hsub hexp
    norm_num at hexp
    simp [create_refresh_token, decode_access_token, jwtDecode, not_lt.mpr hexp, hsub]
  · intro email u db hsub hexp hfind
    norm_num at hexp
    have hdec : decode_access_token secret now
        (create_refresh_token secret issuedAt data delta) = some ⟨email⟩ := by
      simp [create_refresh_token, decode_access_token, jwtDecode, not_lt.mpr hexp, hsub]
    simp [get_current_user, hdec, hfind]

/-- C1 amended-claim witness: concrete refresh token, user and store. -/
theorem C1_refresh_tag_unenforced_witness :
    decode_access_token "s" 50 (create_refresh_token "s" 0 ⟨some "w@x.com", none⟩ none)
      = some ⟨"w@x.com"⟩ ∧
    get_current_user "s" 50 [⟨7, "w@x.com", "hh", none, true, false⟩]
        (create_refresh_token "s" 0 ⟨some "w@x.com", none⟩ none)
      = .ok ⟨7, "w@x.com", "hh", none, true, false⟩ :=
  ⟨(C1_refresh_tag_unenforced "s" 0 50 ⟨some "w@x.com", none⟩ none).2.1 "w@x.com" rfl
      (by decide),
   (C1_refresh_tag_unenforced "s" 0 50 ⟨some "w@x.com", none⟩ none).2.2 "w@x.com"
      ⟨7, "w@x.com", "hh", none, true, false⟩ _ rfl (by decide) rfl⟩

/-- C8: `verify_password` is total — it returns a `Bool`, converting every
backend exception into `false` (fail-closed) — and the error outcome is
indistinguishable from the wrong-password outcome. -/
theorem C8_verify_failclosed
    (backend : String → String → Except String Bool) (plain hashed : String) :
    (∀ msg, backend plain hashed = .error msg →
      verify_password backend plain hashed = false) ∧
    (∀ b, backend plain hashed = .ok b → verify_password backend plain hashed = b) ∧
    (∀ (backend2 : String → String → Except String Bool) p2 h2 msg,
      backend plain hashed = .error msg → backend2 p2 h2 = .ok false →
      verify_password backend plain hashed = verify_password backend2 p2 h2) := by
  refine ⟨?_, ?_, ?_⟩
  · intro msg h
    simp [verify_password, h]
  · intro b h
    simp [verify_password, h]
  · intro backend2 p2 h2 msg h hwrong
    simp [verify_password, h, hwrong]

/-- C8 witness: a backend that raises on any hash not equal to "good"
never makes `verify_password` throw; its outcome equals the
wrong-password outcome. -/
theorem C8_verify_failclosed_witness :
    verify_password (fun _ h => if h = "good" then .ok true else .error "malformed") "pw" "bad"
      = false ∧
    verify_password (fun _ h => if h = "good" then .ok true else .error "malformed") "pw" "bad"
      = verify_password (fun _ _ => .ok false) "pw" "good" :=
  ⟨(C8_verify_failclosed (fun _ h => if h = "good" then .ok true else .error "malformed")
      "pw" "bad").1 "malformed" rfl,
   (C8_verify_failclosed (fun _ h => if h = "good" then .ok true else .error "malformed")
      "pw" "bad").2.2 (fun _ _ => .ok false) "pw" "good" "malformed" rfl rfl⟩

/-- C9: the rate limiter's identity key is `user:<id>` when a resolved
principal is on the request context, and `ip:<remote-address>` otherwise. -/
theorem C9_client_identifier (stateUser : Option User) (remoteAddress : String) :
    (∀ u, stateUser = some u →
      get_client_identifier stateUser remoteAddress = "user:" ++ toString u.id) ∧
    (stateUser = none →
      get_client_identifier stateUser remoteAddress = "ip:" ++ remoteAddress) := by
  constructor
  · intro u h
    subst h
    rfl
  · intro h
    subst h
    rfl

/-- C2: the login protocol in order, short-circuiting: unknown email →
401 with the same status and message wording as a wrong password; wrong
password → the identical 401; correct password for an inactive user → 403
(not 401); otherwise an access token whose `sub` is the user's email is
issued together with the bearer marker and the user. -/
theorem C2_login_protocol (verify : String → String → Bool) (secret : String)
    (now : Int) (db : List User) (username password : String) :
    (findByEmail db username = none →
      login verify secret now db username password
        = .error ⟨401, "Incorrect email or password"⟩) ∧
    (∀ u, findByEmail db username = some u →
      verify password u.hashed_password = false →
      login verify secret now db username password
        = .error ⟨401, "Incorrect email or password"⟩) ∧
    (∀ u, findByEmail db username = some u →
      verify password u.hashed_password = true → u.is_active = false →
      login verify secret now db username password = .error ⟨403, "Inactive user"⟩) ∧
    (∀ u, findByEmail db username = some u →
      verify password u.hashed_password = true → u.is_active = true →
      ∃ resp, login verify secret now db username password = .ok resp ∧
        resp.access_token = create_access_token secret now ⟨some u.email, none⟩ none ∧
        (tokenPayload resp.access_token).map JWTPayload.sub = some (some u.email) ∧
        resp.token_type = "bearer" ∧ resp.user = u) := by
  refine ⟨?_, ?_, ?_, ?_⟩
  · intro h
    simp [login, h]
  · intro u hfind hverify
    simp [login, hfind, hverify]
  · intro u hfind hverify hactive
    simp [login, hfind, hverify, hactive]
  · intro u hfind hverify hactive
    refine ⟨⟨create_access_token secret now ⟨some u.email, none⟩ none, "bearer", u⟩,
      ?_, rfl, rfl, rfl, rfl⟩
    simp [login, hfind, hverify, hactive]

/-- C2 witness: all four branches on concrete stores and verifiers. -/
theorem C2_login_protocol_witness :
    login (fun p h => p == h) "s" 0 [] "ghost@x.com" "pw"
      = .error ⟨401, "Incorrect email or password"⟩ ∧
    login (fun p h => p == h) "s" 0 [⟨1, "a@x.com", "secret1", none, true, false⟩]
        "a@x.com" "wrong" = .error ⟨401, "Incorrect email or password"⟩ ∧
    login (fun p h => p == h) "s" 0 [⟨1, "a@x.com", "secret1", none, false, false⟩]
        "a@x.com" "secret1" = .error ⟨403, "Inactive user"⟩ ∧
    ∃ resp, login (fun p h => p == h) "s" 0 [⟨1, "a@x.com", "secret1", none, true, false⟩]
        "a@x.com" "secret1" = .ok resp ∧
      (tokenPayload resp.access_token).map JWTPayload.sub = some (some "a@x.com") :=
  ⟨(C2_login_protocol (fun p h => p == h) "s" 0 [] "ghost@x.com" "pw").1 rfl,
   (C2_login_protocol (fun p h => p == h) "s" 0
      [⟨1, "a@x.com", "secret1", none, true, false⟩] "a@x.com" "wrong").2.1
      ⟨1, "a@x.com", "secret1", none, true, false⟩ (by decide) (by decide),
   (C2_login_protocol (fun p h => p == h) "s" 0
      [⟨1, "a@x.com", "secret1", none, false, false⟩] "a@x.com" "secret1").2.2.1
      ⟨1, "a@x.com", "secret1", none, false, false⟩ (by decide) (by decide) rfl,
   by
    obtain ⟨resp, h1, _, h3, _, _⟩ := (C2_login_protocol (fun p h => p == h) "s" 0
      [⟨1, "a@x.com", "secret1", none, true, false⟩] "a@x.com" "secret1").2.2.2
      ⟨1, "a@x.com", "secret1", none, true, false⟩ (by decide) (by decide) rfl
    exact ⟨resp, h1, h3⟩⟩

/-- C5: every failing case of `GET /auth/me` — missing Authorization
header, expired token, invalid token, or a decoded token whose subject
matches no stored user — yields a 401 outcome, and the user-not-found case
raises the very same `credentials_exception` as the token-invalid cases. -/
theorem C5_me_unauthorized_uniform (secret : String) (now : Int) (db : List User)
    (authHeader : Option Token) :
    (read_current_user secret now db none = .error ⟨401, "Not authenticated"⟩) ∧
    (∀ tok, decode_access_token secret now tok = none →
      read_current_user secret now db (some tok) = .error credentials_exception) ∧
    (∀ p, p.exp < now →
      read_current_user secret now db (some (.signed p secret))
        = .error credentials_exception) ∧
    (∀ tok td, decode_access_token secret now tok = some td →
      findByEmail db td.email = none →
      read_current_user secret now db (some tok) = .error credentials_exception) ∧
    (∀ e, read_current_user secret now db authHeader = .error e → e.status = 401) := by
  refine ⟨rfl, ?_, ?_, ?_, ?_⟩
  · intro tok hdec
    simp [read_current_user, oauth2_scheme, get_current_user, hdec]
  · intro p hexp
    have hdec : decode_access_token secret now (.signed p secret) = none := by
      simp [decode_access_token, jwtDecode, hexp]
    simp [read_current_user, oauth2_scheme, get_current_user, hdec]
  · intro tok td hdec hfind
    simp [read_current_user, oauth2_scheme, get_current_user, hdec, hfind]
  · intro e he
    match authHeader with
    | none =>
      simp only [read_current_user, oauth2_scheme] at he
      cases he
      rfl
    | some tok =>
      cases hdec : decode_access_token secret now tok with
      | none =>
        simp only [read_current_user, oauth2_scheme, get_current_user, hdec] at he
        cases he
        rfl
      | some td =>
        cases hfind : findByEmail db td.email with
        | none =>
          simp only [read_current_user, oauth2_scheme, get_current_user, hdec, hfind] at he
          cases he
          rfl
        | some u =>
          simp only [read_current_user, oauth2_scheme, get_current_user, hdec, hfind] at he
          cases he

/-- C5 witness: the four failing cases on concrete requests, and the 401
projection on a concrete failure. -/
theorem C5_me_unauthorized_uniform_witness :
    read_current_user "s" 0 [] none = .error ⟨401, "Not authenticated"⟩ ∧
    read_current_user "s" 0 [] (some (.malformed "junk")) = .error credentials_exception ∧
    read_current_user "s" 200 [] (some (.signed ⟨some "a@x.com", 100, none, none⟩ "s"))
      = .error credentials_exception ∧
    read_current_user "s" 0 [] (some (.signed ⟨some "gone@x.com", 100, none, none⟩ "s"))
      = .error credentials_exception ∧
    (HTTPError.mk 401 "Not authenticated").status = 401 :=
  ⟨(C5_me_unauthorized_uniform "s" 0 [] none).1,
   (C5_me_unauthorized_uniform "s" 0 [] (some (.malformed "junk"))).2.1 _ rfl,
   (C5_me_unauthorized_uniform "s" 200 []
      (some (.signed ⟨some "a@x.com", 100, none, none⟩ "s"))).2.2.1 _ (by decide),
   (C5_me_unauthorized_uniform "s" 0 []
      (some (.signed ⟨some "gone@x.com", 100, none, none⟩ "s"))).2.2.2.1 _
      ⟨"gone@x.com"⟩ rfl rfl,
   (C5_me_unauthorized_uniform "s" 0 [] none).2.2.2.2 ⟨401, "Not authenticated"⟩
      (C5_me_unauthorized_uniform "s" 0 [] none).1⟩

/-- C6: current-principal resolution never consults `is_active`: a valid
unexpired token whose subject matches a stored inactive user still
resolves to that user and `GET /auth/me` succeeds; the active flag is
checked during login, where the same inactive user is refused with 403. -/
theorem C6_active_flag_only_at_login (secret : String) (now : Int) (db : List User)
    (p : JWTPayload) (email : String) (u : User) (verify : String → String → Bool)
    (password : String) :
    (p.sub = some email → now ≤ p.exp → findByEmail db email = some u →
      u.is_active = false →
      get_current_user secret now db (.signed p secret) = .ok u ∧
      read_current_user secret now db (some (.signed p secret)) = .ok u) ∧
    (findByEmail db email = some u → verify password u.hashed_password = true →
      u.is_active = false →
      login verify secret now db email password = .error ⟨403, "Inactive user"⟩) := by
  constructor
  · intro hsub hexp hfind _
    have hdec : decode_access_token secret now (.signed p secret) = some ⟨email⟩ := by
      simp [decode_access_token, jwtDecode, not_lt.mpr hexp, hsub]
    constructor
    · simp [get_current_user, hdec, hfind]
    · simp [read_current_user, oauth2_scheme, get_current_user, hdec, hfind]
  · intro hfind hverify hactive
    simp [login, hfind, hverify, hactive]

/-- C6 witness: a concrete inactive user is resolved by `/auth/me` but
refused by login. -/
theorem C6_active_flag_only_at_login_witness :
    read_current_user "s" 0 [⟨3, "sleepy@x.com", "hh", none, false, false⟩]
        (some (.signed ⟨some "sleepy@x.com", 100, none, none⟩ "s"))
      = .ok ⟨3, "sleepy@x.com", "hh", none, false, false⟩ ∧
    login (fun p h => p == h) "s" 0 [⟨3, "sleepy@x.com", "hh", none, false, false⟩]
        "sleepy@x.com" "hh" = .error ⟨403, "Inactive user"⟩ :=
  ⟨((C6_active_flag_only_at_login "s" 0 [⟨3, "sleepy@x.com", "hh", none, false, false⟩]
      ⟨some "sleepy@x.com", 100, none, none⟩ "sleepy@x.com"
      ⟨3, "sleepy@x.com", "hh", none, false, false⟩ (fun p h => p == h) "hh").1
      rfl (by decide) (by decide) rfl).2,
   (C6_active_flag_only_at_login "s" 0 [⟨3, "sleepy@x.com", "hh", none, false, false⟩]
      ⟨some "sleepy@x.com", 100, none, none⟩ "sleepy@x.com"
      ⟨3, "sleepy@x.com", "hh", none, false, false⟩ (fun p h => p == h) "hh").2
      (by decide) (by decide) rfl⟩

/-- C7: registration against an email already stored (exact,
case-sensitive match) answers 400 "Email already registered" and leaves
the store untouched; otherwise exactly one new user — active, not
privileged, holding the hash of the password — is appended, and the
returned public representation is independent of the password hash (its
type has no hash field). -/
theorem C7_register_contract (hash : String → String) (db : List User) (nextId : Nat)
    (email password : String) (full_name : Option String) :
    ((findByEmail db email).isSome = true →
      register hash db nextId email password full_name
        = (.error ⟨400, "Email already registered"⟩, db)) ∧
    (findByEmail db email = none →
      register hash db nextId email password full_name
        = (.ok (userResponse ⟨nextId, email, hash password, full_name, true, false⟩),
           db ++ [⟨nextId, email, hash password, full_name, true, false⟩])) ∧
    (∀ u h2, userResponse { u with hashed_password := h2 } = userResponse u) := by
  refine ⟨?_, ?_, fun u h2 => rfl⟩
  · intro hdup
    obtain ⟨u, hu⟩ := Option.isSome_iff_exists.mp hdup
    simp [register, hu]
  · intro hnone
    simp [register, hnone]

/-- C7 witness: duplicate rejection with unchanged store; success for a
fresh email and for an email differing only in case from a stored one
(the match is case-sensitive). -/
theorem C7_register_contract_witness :
    register (fun p => "H" ++ p) [⟨1, "a@x.com", "h1", none, true, false⟩] 2
        "a@x.com" "pw" none
      = (.error ⟨400, "Email already registered"⟩,
         [⟨1, "a@x.com", "h1", none, true, false⟩]) ∧
    register (fun p => "H" ++ p) [⟨1, "a@x.com", "h1", none, true, false⟩] 2
        "A@x.com" "pw" none
      = (.ok ⟨2, "A@x.com", none, true, false⟩,
         [⟨1, "a@x.com", "h1", none, true, false⟩,
          ⟨2, "A@x.com", "Hpw", none, true, false⟩]) :=
  ⟨(C7_register_contract (fun p => "H" ++ p) [⟨1, "a@x.com", "h1", none, true, false⟩]
      2 "a@x.com" "pw" none).1 (by decide),
   (C7_register_contract (fun p => "H" ++ p) [⟨1, "a@x.com", "h1", none, true, false⟩]
      2 "A@x.com" "pw" none).2.1 (by decide)⟩

/-- C3 counterexample: a concurrent insert of the same email slips past
the pre-check; the commit's uniqueness violation is handled as the generic
500-class DATABASE_ERROR envelope, not as the 400-class duplicate-email
outcome the claim states. -/
theorem C3_counterexample :
    register_request (fun p => p) [] [⟨1, "a@x.com", "h", none, true, false⟩] 2
        "a@x.com" "pw" none "/auth/register"
      = .errorEnvelope 500 ⟨"DATABASE_ERROR", "A database error occurred", "/auth/register"⟩ ∧
    AppOutcome.errorEnvelope 500
        ⟨"DATABASE_ERROR", "A database error occurred", "/auth/register"⟩
      ≠ AppOutcome.httpError ⟨400, "Email already registered"⟩ := by
  refine ⟨rfl, by decide⟩

/-- C3 (amended): a uniqueness-constraint violation at insert time is NOT
mapped to the duplicate-email outcome: `register` catches nothing, so the
IntegrityError propagates to `database_exception_handler`, which answers
with the generic 500 DATABASE_ERROR envelope; only the pre-check duplicate
yields the 400 outcome. -/
theorem C3_integrity_error_is_500 (hash : String → String)
    (viewDb committedDb : List User) (nextId : Nat) (email password : String)
    (full_name : Option String) (path : String) :
    (findByEmail viewDb email = none → (findByEmail committedDb email).isSome = true →
      register_request hash viewDb committedDb nextId email password full_name path
        = .errorEnvelope (database_exception_handler path).1
            (database_exception_handler path).2) ∧
    ((findByEmail viewDb email).isSome = true →
      register_request hash viewDb committedDb nextId email password full_name path
        = .httpError ⟨400, "Email already registered"⟩) ∧
    database_exception_handler path
      = (500, ⟨"DATABASE_ERROR", "A database error occurred", path⟩) := by
  refine ⟨?_, ?_, rfl⟩
  · intro hview hcommitted
    simp [register_request, hview, hcommitted, database_exception_handler]
  · intro hdup
    obtain ⟨u, hu⟩ := Option.isSome_iff_exists.mp hdup
    simp [register_request, hu]

/-- C3 amended-claim witness: the concrete race and the concrete
pre-check duplicate. -/
theorem C3_integrity_error_is_500_witness :
    register_request (fun p => p) [] [⟨1, "b@x.com", "h", none, true, false⟩] 2
        "b@x.com" "pw" none "/auth/register"
      = .errorEnvelope 500 ⟨"DATABASE_ERROR", "A database error occurred", "/auth/register"⟩ ∧
    register_request (fun p => p) [⟨1, "b@x.com", "h", none, true, false⟩]
        [⟨1, "b@x.com", "h", none, true, false⟩] 2 "b@x.com" "pw" none "/auth/register"
      = .httpError ⟨400, "Email already registered"⟩ :=
  ⟨(C3_integrity_error_is_500 (fun p => p) [] [⟨1, "b@x.com", "h", none, true, false⟩]
      2 "b@x.com" "pw" none "/auth/register").1 rfl (by decide),
   (C3_integrity_error_is_500 (fun p => p) [⟨1, "b@x.com", "h", none, true, false⟩]
      [⟨1, "b@x.com", "h", none, true, false⟩] 2 "b@x.com" "pw" none "/auth/register").2.1
      (by decide)⟩

/-- C9 witness: a concrete principal and a concrete anonymous request. -/
theorem C9_client_identifier_witness :
    get_client_identifier (some ⟨123, "a@x.com", "h", none, true, false⟩) "192.168.1.1"
      = "user:123" ∧
    get_client_identifier none "192.168.1.1" = "ip:192.168.1.1" :=
  ⟨by
    have h := (C9_client_identifier (some ⟨123, "a@x.com", "h", none, true, false⟩)
      "192.168.1.1").1 ⟨123, "a@x.com", "h", none, true, false⟩ rfl
    simpa using h,
   (C9_client_identifier none "192.168.1.1").2 rfl⟩

/-- After `n` requests at the same instant `t`, the fixed-window counter
sits at `n` inside the window opened at `t`. -/
theorem sameTimeState_closed (limit window t : Nat) (hw : 0 < window) :
    ∀ n, sameTimeState limit window t n = if n = 0 then none else some ⟨t, n⟩ := by
  intro n
  induction n with
  | zero => rfl
  | succ m ih =>
    by_cases hm : m = 0
    · subst hm
      simp [sameTimeState, fixedWindowHit]
    · simp only [sameTimeState, ih, if_neg hm]
      simp [fixedWindowHit, Nat.lt_add_of_pos_right hw]

/-- The verdict on the `n`-th same-instant request is exactly `n ≤ limit`. -/
theorem sameTimeDecision_closed (limit window t : Nat) (hw : 0 < window)
    (n : Nat) (hn : 1 ≤ n) :
    sameTimeDecision limit window t n = decide (n ≤ limit) := by
  obtain ⟨m, rfl⟩ : ∃ m, n = m + 1 := ⟨n - 1, (Nat.succ_pred_eq_of_pos hn).symm⟩
  by_cases hm : m = 0
  · subst hm
    rfl
  · unfold sameTimeDecision
    rw [Nat.add_sub_cancel, sameTimeState_closed limit window t hw m, if_neg hm]
    simp [fixedWindowHit, Nat.lt_add_of_pos_right hw]

/-- Storing one key's counter leaves every other key's counter alone. -/
theorem lookupKey_updateKey_ne (key key2 : String) (s : WindowState)
    (h : key ≠ key2) :
    ∀ m, lookupKey key2 (updateKey key s m) = lookupKey key2 m := by
  intro m
  induction m with
  | nil => simp [updateKey, lookupKey, beq_iff_eq, h]
  | cons kv rest ih =>
    obtain ⟨k, v⟩ := kv
    by_cases hk : k = key
    · subst hk
      simp [updateKey, lookupKey, beq_iff_eq, h]
    · simp [updateKey, lookupKey, beq_iff_eq, hk, ih]

/-- C10: the configured limits are 5/minute on registration, 10/minute on
login and 100/minute plus 1000/hour by default; under the fixed-window
strategy the first N same-window requests from one key pass, the N+1-th is
rejected, and a request after the window has elapsed passes again on a
reset counter; counters are independent per key; a rejected request is
answered 429 with the route handler's result unused. -/
theorem C10_fixed_window_limits (N window t : Nat) (hw : 0 < window) (hN : 0 < N) :
    (registration_limit = some (5, 60) ∧ login_limit = some (10, 60) ∧
      default_limits = [some (100, 60), some (1000, 3600)]) ∧
    ((∀ n, 1 ≤ n → n ≤ N → sameTimeDecision N window t n = true) ∧
      sameTimeDecision N window t (N + 1) = false) ∧
    fixedWindowHit N window (t + window) (sameTimeState N window t (N + 1))
      = (true, ⟨t + window, 1⟩) ∧
    (∀ limit now key key2 m, key ≠ key2 →
      lookupKey key2 (keyedHit limit window now key m).2 = lookupKey key2 m) ∧
    (∀ (α : Type) (h1 h2 : α) (limit now : Nat) (key : String)
        (m : List (String × WindowState)),
      (keyedHit limit window now key m).1 = false →
      (rate_limited_call limit window now key m h1).1
        = .error ⟨429, "Rate limit exceeded"⟩ ∧
      (rate_limited_call limit window now key m h1).1
        = (rate_limited_call limit window now key m h2).1) := by
  refine ⟨⟨by decide, by decide, by decide⟩, ⟨?_, ?_⟩, ?_, ?_, ?_⟩
  · intro n h1 hn
    rw [sameTimeDecision_closed N window t hw n h1]
    simpa using hn
  · rw [sameTimeDecision_closed N window t hw (N + 1) (by omega)]
    simp
  · rw [sameTimeState_closed N window t hw (N + 1), if_neg (Nat.succ_ne_zero N)]
    simp [fixedWindowHit]
    omega
  · intro limit now key key2 m hne
    exact lookupKey_updateKey_ne key key2 _ hne m
  · intro α h1 h2 limit now key m hfalse
    simp [rate_limited_call, hfalse]

/-- C10 witness: a 5/minute limit on one key — the fifth request passes,
the sixth is rejected, the window reset readmits, other keys untouched. -/
theorem C10_fixed_window_limits_witness :
    sameTimeDecision 5 60 0 5 = true ∧
    sameTimeDecision 5 60 0 6 = false ∧
    fixedWindowHit 5 60 60 (sameTimeState 5 60 0 6) = (true, ⟨60, 1⟩) ∧
    lookupKey "ip:2.2.2.2" (keyedHit 5 60 0 "ip:1.1.1.1" []).2
      = lookupKey "ip:2.2.2.2" [] :=
  ⟨(C10_fixed_window_limits 5 60 0 (by decide) (by decide)).2.1.1 5 (by decide) (by decide),
   (C10_fixed_window_limits 5 60 0 (by decide) (by decide)).2.1.2,
   (C10_fixed_window_limits 5 60 0 (by decide) (by decide)).2.2.1,
   (C10_fixed_window_limits 5 60 0 (by decide) (by decide)).2.2.2.1 5 0
     "ip:1.1.1.1" "ip:2.2.2.2" [] (by decide)⟩

end Intellium
